import Mathlib

/-!
Shallow embedding of the elastic driver in `horovod/run/elastic/driver.py`
(classes `WorkerStateRegistry`, `Results`, `ElasticDriver`), together with a
model of the `DiscoveredHosts` collaborator, which lives in
`horovod/run/elastic/discovery.py` and is modelled from the specification
because its source is not part of this snapshot.

Python dictionaries are embedded as association lists, Python sets as
duplicate-free lists, and the `threading.Barrier` is embedded through its
documented semantics: a list of currently waiting thread identifiers, an
event trace recording resets, broken-barrier notifications, state writes,
the completion action, and releases.
-/

namespace ElasticDriver

/-- Worker terminal states: the string tags READY / SUCCESS / FAILURE of driver.py. -/
inductive WorkerHealth where
  | READY
  | SUCCESS
  | FAILURE
deriving DecidableEq, Inhabited

/-- Worker key, the pair (host, slot) used by `WorkerStateRegistry`. -/
abbrev WKey := String × Nat

/-- Lookup in an association list embedding a Python dict keyed by worker keys. -/
def stLookup (m : List (WKey × WorkerHealth)) (k : WKey) : Option WorkerHealth :=
  match m with
  | [] => none
  | (k2, v) :: rest => if k2 = k then some v else stLookup rest k

/-- Overwriting insertion into the association list, embedding `d[k] = v`. -/
def stInsert (m : List (WKey × WorkerHealth)) (k : WKey) (v : WorkerHealth) :
    List (WKey × WorkerHealth) :=
  match m with
  | [] => [(k, v)]
  | (k2, v2) :: rest => if k2 = k then (k, v) :: rest else (k2, v2) :: stInsert rest k v

/-- Set insertion for a duplicate-free list, embedding Python `set.add`. -/
def setAdd (l : List WKey) (k : WKey) : List WKey :=
  if k ∈ l then l else l ++ [k]

/-- State of a `WorkerStateRegistry`: the `_states` dict, the `_workers`
inverse index (one list per state tag, mirroring `defaultdict(set)`), the
`_rendezvous_id` counter and the `_size` field.  The barrier's parties count
equals `size` because `reset` rebuilds the barrier with `parties=size`. -/
structure Registry where
  states : List (WKey × WorkerHealth)
  workersReady : List WKey
  workersSuccess : List WKey
  workersFailure : List WKey
  rendezvous_id : Nat
  size : Nat
deriving DecidableEq

/-- Embedding of `self._workers[state].add(key)`: the key is added to the
index list of the newly recorded state only; a previous entry of the same key
under another state is NOT removed (faithful to the source). -/
def addWorker (reg : Registry) (s : WorkerHealth) (k : WKey) : Registry :=
  match s with
  | .READY => { reg with workersReady := setAdd reg.workersReady k }
  | .SUCCESS => { reg with workersSuccess := setAdd reg.workersSuccess k }
  | .FAILURE => { reg with workersFailure := setAdd reg.workersFailure k }

/-- The registry mutation performed inside the locked section of
`_record_state`: `self._states[key] = state; self._workers[state].add(key)`. -/
def recordUpdate (reg : Registry) (k : WKey) (s : WorkerHealth) : Registry :=
  addWorker { reg with states := stInsert reg.states k s } s k

/-- Embedding of `WorkerStateRegistry.reset(size)`: clear the state map and
the worker index, rebuild the barrier with `parties=size`, increment
`_rendezvous_id`, store `_size`. -/
def resetRegistry (reg : Registry) (n : Nat) : Registry :=
  { states := [], workersReady := [], workersSuccess := [], workersFailure := [],
    rendezvous_id := reg.rendezvous_id + 1, size := n }

/-- Observable events of the registry and its barrier.  `barrierReset` is
`self._barrier.reset()`; `notifyBroken t` is thread `t`, currently blocked in
`Barrier.wait()`, receiving `BrokenBarrierError` (documented effect of
`Barrier.reset`); `writeState` is the dict overwrite; `runAction t` is the
barrier completion action run by the last-arriving thread `t`; `release t r`
is thread `t` returning rendezvous id `r` from the barrier wait. -/
inductive RegEvent where
  | barrierReset
  | notifyBroken (tid : Nat)
  | writeState (k : WKey) (s : WorkerHealth)
  | runAction (tid : Nat)
  | release (tid : Nat) (rid : Nat)
deriving DecidableEq

/-- The locked section of `_record_state` (driver.py lines 91-98), given the
thread ids currently waiting on the barrier.  If the key is already recorded
the barrier is reset first, which notifies every current waiter with a
broken-barrier signal; then the state is written and `_rendezvous_id` is
snapshotted.  Returns the updated registry, the emitted events in program
order, the snapshot, and whether the barrier was reset. -/
def record_locked (reg : Registry) (waiters : List Nat) (k : WKey) (s : WorkerHealth) :
    Registry × List RegEvent × Nat × Bool :=
  if (stLookup reg.states k).isSome then
    (recordUpdate reg k s,
     RegEvent.barrierReset :: (waiters.map RegEvent.notifyBroken ++ [RegEvent.writeState k s]),
     reg.rendezvous_id, true)
  else
    (recordUpdate reg k s, [RegEvent.writeState k s], reg.rendezvous_id, false)

/-- Outcome of the pre-wait portion of `_record_state`: either an early
return of the current rendezvous id (driver already finished: no lock, no
barrier, no state change), or entry into the barrier wait with the snapshot
taken under the lock. -/
inductive RecordPhase where
  | earlyReturn (rid : Nat)
  | enterWait (rid : Nat)
deriving DecidableEq

/-- Embedding of `_record_state` up to the barrier wait (driver.py lines
85-100): check `self._driver.finished()`, and if not finished run the locked
section and proceed to `_wait` with the snapshotted rendezvous id. -/
def record_state (finished : Bool) (reg : Registry) (waiters : List Nat)
    (k : WKey) (s : WorkerHealth) : Registry × List RegEvent × RecordPhase :=
  if finished then
    (reg, [], RecordPhase.earlyReturn reg.rendezvous_id)
  else
    match record_locked reg waiters k s with
    | (reg2, evs, rid, _) => (reg2, evs, RecordPhase.enterWait rid)

/-- Default start timeout, the constant `START_TIMEOUT_SECS` of driver.py. -/
def START_TIMEOUT_SECS : Nat := 600

/-- Embedding of driver.py line 156,
`self._start_timeout = start_timeout or int(os.getenv('HOROVOD_ELASTIC_START_TIMEOUT', START_TIMEOUT_SECS))`:
a falsy constructor argument (None, embedded as `none`, or the integer 0)
falls back to the environment variable, itself defaulting to 600. -/
def effective_start_timeout (start_timeout : Option Nat) (env : Option Nat) : Nat :=
  match start_timeout with
  | none => env.getD START_TIMEOUT_SECS
  | some t => if t = 0 then env.getD START_TIMEOUT_SECS else t

/-- Lookup in an association list keyed by host names. -/
def hLookup (m : List (String × Nat)) (h : String) : Option Nat :=
  match m with
  | [] => none
  | (h2, v) :: rest => if h2 = h then some v else hLookup rest h

/-- Modelled from the spec: the `DiscoveredHosts` collaborator of
`horovod/run/elastic/discovery.py` is not part of this source snapshot; its
state is modelled from §4.1 of the specification as the last-known slot
count per discovered host, the set of currently available hosts, and the
monotonic blacklist. -/
structure DiscoveredHosts where
  slots : List (String × Nat)
  available : List String
  blacklisted : List String
deriving DecidableEq

/-- Modelled from the spec: `get_slots(host)`, the capacity reported by
discovery for a host (0 when unknown). -/
def get_slots (d : DiscoveredHosts) (h : String) : Nat :=
  (hLookup d.slots h).getD 0

/-- Modelled from the spec: `is_blacklisted(host)`. -/
def is_blacklisted (d : DiscoveredHosts) (h : String) : Bool :=
  h ∈ d.blacklisted

/-- Modelled from the spec: `count_available_slots()` is the sum of
`slots(h)` over non-blacklisted available hosts. -/
def count_available_slots (d : DiscoveredHosts) : Nat :=
  ((d.available.filter (fun h => ¬ is_blacklisted d h)).map (get_slots d)).sum

/-- Modelled from the spec: `count_blacklisted_slots()`, the sum of the
last-known slot counts over blacklisted hosts (the complement of
`count_available_slots` over the blacklist). -/
def count_blacklisted_slots (d : DiscoveredHosts) : Nat :=
  (d.blacklisted.map (get_slots d)).sum

/-- Modelled from the spec: `blacklist(host)` is idempotent and monotonic. -/
def blacklist (d : DiscoveredHosts) (h : String) : DiscoveredHosts :=
  if h ∈ d.blacklisted then d else { d with blacklisted := d.blacklisted ++ [h] }

/-- Decision taken by `on_workers_recorded`: which branch sets the shutdown
event, or the fall-through re-activation at width `min_np`. -/
inductive DriverDecision where
  | shutdownSuccess
  | shutdownAllFailed
  | shutdownNoCapacity
  | reactivate
deriving DecidableEq

/-- Embedding of `ElasticDriver.on_workers_recorded` (driver.py lines
207-238): if any worker recorded SUCCESS, stop; else if the FAILURE count
equals `_world_size`, stop; else blacklist the host of every FAILURE worker,
then stop when `count_blacklisted_slots()` equals `_world_size`, and
otherwise re-activate.  Returns the updated discovered-hosts state and the
decision. -/
def on_workers_recorded (reg : Registry) (d : DiscoveredHosts) (world_size : Nat) :
    DiscoveredHosts × DriverDecision :=
  if 0 < reg.workersSuccess.length then
    (d, DriverDecision.shutdownSuccess)
  else if reg.workersFailure.length = world_size then
    (d, DriverDecision.shutdownAllFailed)
  else
    let d2 := reg.workersFailure.foldl (fun acc kv => blacklist acc kv.1) d
    if count_blacklisted_slots d2 = world_size then
      (d2, DriverDecision.shutdownNoCapacity)
    else
      (d2, DriverDecision.reactivate)

/-- Embedding of `ElasticDriver._has_available_slots(slots, min_np, max_np)`
(driver.py lines 187-188): `slots >= min_np and (max_np is None or slots <= max_np)`. -/
def has_available_slots (slots min_np : Nat) (max_np : Option Nat) : Bool :=
  decide (min_np ≤ slots) && (match max_np with
    | none => true
    | some m => decide (slots ≤ m))

/-- Outcome of the initial activation wait: either the condition was reached,
or the start timeout elapsed and the timeout error propagates. -/
inductive StartOutcome where
  | ok
  | startTimeout
deriving DecidableEq

/-- Embedding of `ElasticDriver.wait_for_available_hosts(min_np, max_np)`
(driver.py lines 173-185).  Real time is abstracted: `trace` is the
successive values of `count_available_slots()` observed by the loop, and
exhausting the trace without satisfying `_has_available_slots` is the
`start_timeout` expiring, upon which the timeout error is raised. -/
def wait_for_available_hosts (trace : List Nat) (min_np : Nat) (max_np : Option Nat) :
    StartOutcome :=
  match trace with
  | [] => StartOutcome.startTimeout
  | s :: rest =>
    if has_available_slots s min_np max_np then StartOutcome.ok
    else wait_for_available_hosts rest min_np max_np

/-- Embedding of the wait performed by `ElasticDriver._activate_hosts(min_np)`
(driver.py line 260): it calls `self.wait_for_available_hosts(min_np)` with
the `max_np` parameter left at its default `None`. -/
def activate_hosts_wait (trace : List Nat) (np : Nat) : StartOutcome :=
  wait_for_available_hosts trace np none

/-- Embedding of the activation wait reached from `ElasticDriver.start(np,
create_worker_fn)` (driver.py lines 169-171): start calls
`_activate_hosts(np)`, so errors of the wait propagate out of `start`. -/
def start_wait (trace : List Nat) (np : Nat) : StartOutcome :=
  activate_hosts_wait trace np

/-- Signal with which a thread blocked in `Barrier.wait()` is released:
orderly completion, `BrokenBarrierError` with `barrier.broken` true
afterwards (abort or timeout: permanent), or `BrokenBarrierError` with
`barrier.broken` false (a `Barrier.reset`: transient). -/
inductive BarrierSignal where
  | completed
  | brokenPermanent
  | brokenTransient
deriving DecidableEq

/-- Outcome of one iteration of the `_wait` loop: return the snapshot id,
re-raise the broken-barrier error, raise the state-overridden error
(`RuntimeError('State ... overridden by ...')`), or loop again with a
freshly snapshotted rendezvous id. -/
inductive WaitStep where
  | finish (rid : Nat)
  | raiseBroken
  | raiseOverridden (mine saved : WorkerHealth)
  | retry (rid : Nat)
deriving DecidableEq

/-- Embedding of one iteration of `WorkerStateRegistry._wait` (driver.py
lines 103-117): on completion return the snapshot; on a broken barrier,
re-raise if the barrier is permanently broken, otherwise re-snapshot
`_rendezvous_id` under the lock, read the saved state for the key (defaulting
to the caller's own state when the key is absent), raise the overridden
error when it differs from the caller's state, and retry otherwise. -/
def wait_iteration (reg : Registry) (k : WKey) (s : WorkerHealth) (rid : Nat)
    (sig : BarrierSignal) : WaitStep :=
  match sig with
  | .completed => WaitStep.finish rid
  | .brokenPermanent => WaitStep.raiseBroken
  | .brokenTransient =>
    let saved := (stLookup reg.states k).getD s
    if saved ≠ s then WaitStep.raiseOverridden s saved
    else WaitStep.retry reg.rendezvous_id

/-- Registry operations that mutate or read the registry, used to state that
`_rendezvous_id` changes only on `reset`.  A `record` carries the driver's
finished flag observed at entry. -/
inductive RegOp where
  | reset (n : Nat)
  | record (finished : Bool) (k : WKey) (s : WorkerHealth)
deriving DecidableEq

/-- State transition of the registry under one operation: `reset` is
`resetRegistry`; a `record` with the driver finished leaves the registry
untouched, and otherwise performs the locked-section mutation (the barrier
wait reads but never writes the registry). -/
def applyOp (reg : Registry) : RegOp → Registry
  | .reset n => resetRegistry reg n
  | .record fin k s => if fin then reg else recordUpdate reg k s

/-- Lookup in the results map keyed by "host[slot]" strings. -/
def rLookup (m : List (String × Int × Nat)) (k : String) : Option (Int × Nat) :=
  match m with
  | [] => none
  | (k2, v) :: rest => if k2 = k then some v else rLookup rest k

/-- Embedding of `Results.add_result` (driver.py lines 131-134): first write
wins per key. -/
def add_result (m : List (String × Int × Nat)) (k : String) (v : Int × Nat) :
    List (String × Int × Nat) :=
  if (rLookup m k).isSome then m else m ++ [(k, v)]

/-- Embedding of `ElasticDriver.has_rank_assignment(host, slot)` (driver.py
lines 250-253): false for blacklisted hosts, else true iff the host has an
assignment list longer than `slot`.  `assign` maps each assigned host to the
length of its slot-info list. -/
def has_rank_assignment (blk : List String) (assign : List (String × Nat))
    (host : String) (slot : Nat) : Bool :=
  if host ∈ blk then false
  else
    match hLookup assign host with
    | some n => decide (slot < n)
    | none => false

/-- Result key `'{}[{}]'.format(host, slot)` of `_handle_worker_exit`. -/
def resultKey (host : String) (slot : Nat) : String :=
  host ++ "[" ++ toString slot ++ "]"

/-- Outcome of `_handle_worker_exit`: the exit was discarded silently, or a
state was reported to the registry, with a flag telling whether the
`(exit_code, timestamp)` pair was published into Results. -/
inductive ExitReport where
  | discarded
  | recorded (st : WorkerHealth) (published : Bool)
deriving DecidableEq

/-- Embedding of `ElasticDriver._handle_worker_exit` (driver.py lines
328-344).  `finishedAfter` is `self.finished()` observed after the record
call returns, `returnedId` the rendezvous id returned by the registry, and
`lastId` the registry's `last_rendezvous()`.  If the slot has no rank
assignment the exit is discarded; otherwise SUCCESS is reported iff the exit
code is 0 and FAILURE otherwise, and the pair is added to Results (first
write wins) under `resultKey` iff the driver is finished and the ids agree. -/
def handle_worker_exit (blk : List String) (assign : List (String × Nat))
    (host : String) (slot : Nat) (exit_code : Int) (timestamp : Nat)
    (finishedAfter : Bool) (returnedId lastId : Nat)
    (results : List (String × Int × Nat)) :
    ExitReport × List (String × Int × Nat) :=
  if ¬ has_rank_assignment blk assign host slot then
    (ExitReport.discarded, results)
  else
    let st := if exit_code = 0 then WorkerHealth.SUCCESS else WorkerHealth.FAILURE
    if finishedAfter && decide (lastId = returnedId) then
      (ExitReport.recorded st true, add_result results (resultKey host slot) (exit_code, timestamp))
    else
      (ExitReport.recorded st false, results)

/-- One barrier-cycle arrival: the reporting thread id and the `(key, state)`
it records. -/
abbrev CArr := Nat × WKey × WorkerHealth

/-- Interleaved execution state of one rendezvous generation: the registry,
the barrier's waiting threads paired with the rendezvous-id snapshot each
took under the lock, the event trace, and the `(tid, rendezvous_id)` pairs
already returned from `record_*`. -/
structure CycleState where
  reg : Registry
  pending : List (Nat × Nat)
  evs : List RegEvent
  returned : List (Nat × Nat)

/-- One `record_*` call of a barrier cycle, scheduled at an arbitrary point:
the locked section runs (a duplicate key resets the barrier, flushing the
pending waiters with a broken signal), the caller joins the barrier wait
with its snapshot, and when the arrival count reaches the parties count the
completion action runs on the last-arriving thread before every waiter is
released with its own snapshot (documented `threading.Barrier` semantics). -/
def cycleStep (c : CycleState) (a : CArr) : CycleState :=
  match record_locked c.reg (c.pending.map Prod.fst) a.2.1 a.2.2 with
  | (reg2, evs2, rid, didReset) =>
    let pend := if didReset then [(a.1, rid)] else c.pending ++ [(a.1, rid)]
    if pend.length = reg2.size then
      { reg := reg2, pending := [],
        evs := c.evs ++ evs2 ++ [RegEvent.runAction a.1]
                 ++ pend.map (fun p => RegEvent.release p.1 p.2),
        returned := c.returned ++ pend }
    else
      { reg := reg2, pending := pend, evs := c.evs ++ evs2, returned := c.returned }

/-- Execution of a whole barrier cycle: the arrival list is the arbitrary
order in which the scheduler lets the `record_*` calls take the lock. -/
def runCycle (reg0 : Registry) (arrivals : List CArr) : CycleState :=
  arrivals.foldl cycleStep { reg := reg0, pending := [], evs := [], returned := [] }

/-- Recognizer for barrier completion-action events. -/
def isRunAction : RegEvent → Bool
  | .runAction _ => true
  | _ => false

end ElasticDriver

namespace ElasticDriver

/-- C4: a record_* call made while the driver's finished flag is set returns
the current rendezvous_id via the early-return phase, leaves the registry
unchanged and emits no barrier or state event, hence neither records state
nor touches the barrier nor blocks. -/
theorem claim_C4 (reg : Registry) (waiters : List Nat) (k : WKey) (s : WorkerHealth) :
    record_state true reg waiters k s = (reg, [], RecordPhase.earlyReturn reg.rendezvous_id) := by
  rfl

theorem blacklist_mono (d : DiscoveredHosts) (h h2 : String) (hm : h ∈ d.blacklisted) :
    h ∈ (blacklist d h2).blacklisted := by
  unfold blacklist
  split
  · exact hm
  · simp only [List.mem_append]
    exact Or.inl hm

theorem blacklist_mem_self (d : DiscoveredHosts) (h : String) :
    h ∈ (blacklist d h).blacklisted := by
  unfold blacklist
  split
  · assumption
  · simp

theorem blacklist_foldl_mono (l : List WKey) (d : DiscoveredHosts) (h : String)
    (hm : h ∈ d.blacklisted) :
    h ∈ (l.foldl (fun acc kv => blacklist acc kv.1) d).blacklisted := by
  induction l generalizing d with
  | nil => exact hm
  | cons a rest ih => exact ih (blacklist d a.1) (blacklist_mono d h a.1 hm)

theorem blacklist_foldl_mem (l : List WKey) (d : DiscoveredHosts) (kv : WKey)
    (hm : kv ∈ l) :
    kv.1 ∈ (l.foldl (fun acc kv => blacklist acc kv.1) d).blacklisted := by
  induction l generalizing d with
  | nil => cases hm
  | cons a rest ih =>
    rcases List.mem_cons.mp hm with rfl | hr
    · exact blacklist_foldl_mono rest (blacklist d kv.1) kv.1 (blacklist_mem_self d kv.1)
    · exact ih (blacklist d a.1) hr

/-- Concrete registry for exercising `on_workers_recorded`: generation of
size 4, three FAILURE workers on hosts h1 and h2, one READY worker. -/
def regNoCap : Registry :=
  { states := [(("h1", 0), WorkerHealth.FAILURE), (("h1", 1), WorkerHealth.FAILURE),
               (("h2", 0), WorkerHealth.FAILURE), (("h2", 1), WorkerHealth.READY)],
    workersReady := [("h2", 1)],
    workersSuccess := [],
    workersFailure := [("h1", 0), ("h1", 1), ("h2", 0)],
    rendezvous_id := 3, size := 4 }

/-- Concrete discovered-hosts state: h1 and h2 carry 2 slots each, a freshly
discovered host h3 carries 8 slots, nothing blacklisted yet. -/
def dNoCap : DiscoveredHosts :=
  { slots := [("h1", 2), ("h2", 2), ("h3", 8)],
    available := ["h1", "h2", "h3"],
    blacklisted := [] }

/-- C1 counterexample: with world size 4, FAILURE workers on h1 and h2 (3 of
4 workers, no SUCCESS) and a fresh available host h3 with 8 slots, the code
blacklists h1 and h2, finds `count_blacklisted_slots() == world_size` and
shuts down — yet the count of non-blacklisted slots is 8, not 0.  The claim's
"shuts down exactly when the count of non-blacklisted slots equals zero" is
therefore false on the code. -/
theorem claim_C1_counterexample :
    (on_workers_recorded regNoCap dNoCap 4).2 = DriverDecision.shutdownNoCapacity
      ∧ count_available_slots (on_workers_recorded regNoCap dNoCap 4).1 = 8
      ∧ count_available_slots (on_workers_recorded regNoCap dNoCap 4).1 ≠ 0 := by
  refine ⟨rfl, rfl, by decide⟩

/-- C1 (amended): when no worker recorded SUCCESS and at least one but not
all workers recorded FAILURE, the hosts of the failed workers are
blacklisted, and the driver shuts down exactly when
`count_blacklisted_slots()` equals the world size (which, as the
counterexample shows, need not coincide with the non-blacklisted slot count
being zero); otherwise it re-activates. -/
theorem claim_C1 (reg : Registry) (d : DiscoveredHosts) (ws : Nat)
    (hsucc : reg.workersSuccess.length = 0)
    (hsome : 0 < reg.workersFailure.length)
    (hnotall : reg.workersFailure.length ≠ ws) :
    (∀ kv ∈ reg.workersFailure, kv.1 ∈ (on_workers_recorded reg d ws).1.blacklisted)
      ∧ ((on_workers_recorded reg d ws).2 = DriverDecision.shutdownNoCapacity
          ↔ count_blacklisted_slots (on_workers_recorded reg d ws).1 = ws)
      ∧ ((on_workers_recorded reg d ws).2 = DriverDecision.shutdownNoCapacity
          ∨ (on_workers_recorded reg d ws).2 = DriverDecision.reactivate) := by
  have _ := hsome
  have hrun : on_workers_recorded reg d ws =
      if count_blacklisted_slots
          (reg.workersFailure.foldl (fun acc kv => blacklist acc kv.1) d) = ws then
        (reg.workersFailure.foldl (fun acc kv => blacklist acc kv.1) d,
          DriverDecision.shutdownNoCapacity)
      else
        (reg.workersFailure.foldl (fun acc kv => blacklist acc kv.1) d,
          DriverDecision.reactivate) := by
    unfold on_workers_recorded
    simp [hsucc, hnotall]
  by_cases hc :
      count_blacklisted_slots
        (reg.workersFailure.foldl (fun acc kv => blacklist acc kv.1) d) = ws
  · rw [hrun, if_pos hc]
    exact ⟨fun kv hkv => blacklist_foldl_mem reg.workersFailure d kv hkv,
      by simp [hc], Or.inl rfl⟩
  · rw [hrun, if_neg hc]
    exact ⟨fun kv hkv => blacklist_foldl_mem reg.workersFailure d kv hkv,
      by simp [hc], Or.inr rfl⟩

/-- C1 witness: the amended theorem applied to the concrete generation of
size 4 with three failed workers. -/
theorem claim_C1_witness :
    ((on_workers_recorded regNoCap dNoCap 4).2 = DriverDecision.shutdownNoCapacity
      ↔ count_blacklisted_slots (on_workers_recorded regNoCap dNoCap 4).1 = 4) :=
  (claim_C1 regNoCap dNoCap 4 rfl (by decide) (by decide)).2.1

/-- Concrete registry with one SUCCESS alongside concurrent failures. -/
def regSucc : Registry :=
  { states := [(("h1", 0), WorkerHealth.SUCCESS), (("h1", 1), WorkerHealth.FAILURE),
               (("h2", 0), WorkerHealth.FAILURE), (("h2", 1), WorkerHealth.FAILURE)],
    workersReady := [],
    workersSuccess := [("h1", 0)],
    workersFailure := [("h1", 1), ("h2", 0), ("h2", 1)],
    rendezvous_id := 2, size := 4 }

/-- Concrete discovered-hosts state for the success-wins scenario. -/
def dSucc : DiscoveredHosts :=
  { slots := [("h1", 2), ("h2", 2)],
    available := ["h1", "h2"],
    blacklisted := [] }

/-- C3: whenever at least one worker of the generation recorded SUCCESS,
`on_workers_recorded` decides shutdown-on-success and returns the
discovered-hosts state unchanged: no host is blacklisted and no
re-activation occurs, regardless of concurrent failures. -/
theorem claim_C3 (reg : Registry) (d : DiscoveredHosts) (ws : Nat)
    (h : 0 < reg.workersSuccess.length) :
    on_workers_recorded reg d ws = (d, DriverDecision.shutdownSuccess) := by
  unfold on_workers_recorded
  simp [h]

/-- C3 witness: one SUCCESS and three concurrent FAILUREs still decide
shutdown-on-success with no blacklisting. -/
theorem claim_C3_witness :
    on_workers_recorded regSucc dSucc 4 = (dSucc, DriverDecision.shutdownSuccess) :=
  claim_C3 regSucc dSucc 4 (by decide)

/-- C2 counterexample: with `min_np = 2`, `max_np = 4` and a single observed
slot count of 10, the activation wait reached from `start` returns
successfully, although 10 does not lie within [2, 4]: `_activate_hosts`
calls `wait_for_available_hosts(min_np)` without forwarding `max_np`, so the
upper bound is never enforced during the initial wait. -/
theorem claim_C2_counterexample :
    start_wait [10] 2 = StartOutcome.ok ∧ has_available_slots 10 2 (some 4) = false := by
  refine ⟨rfl, rfl⟩

theorem wait_none_iff (trace : List Nat) (np : Nat) :
    (wait_for_available_hosts trace np none = StartOutcome.ok ↔ ∃ s ∈ trace, np ≤ s)
      ∧ (wait_for_available_hosts trace np none = StartOutcome.startTimeout
          ↔ ∀ s ∈ trace, s < np) := by
  induction trace with
  | nil => simp [wait_for_available_hosts]
  | cons s rest ih =>
    by_cases h : np ≤ s
    · simp [wait_for_available_hosts, has_available_slots, h]
    · have hs : s < np := Nat.lt_of_not_le h
      have hw : wait_for_available_hosts (s :: rest) np none
          = wait_for_available_hosts rest np none := by
        simp [wait_for_available_hosts, has_available_slots, h]
      rw [hw]
      constructor
      · rw [ih.1]
        constructor
        · rintro ⟨x, hx, hnp⟩
          exact ⟨x, List.mem_cons_of_mem s hx, hnp⟩
        · rintro ⟨x, hx, hnp⟩
          rcases List.mem_cons.mp hx with rfl | hx2
          · exact absurd hnp h
          · exact ⟨x, hx2, hnp⟩
      · rw [ih.2]
        constructor
        · intro hall x hx
          rcases List.mem_cons.mp hx with rfl | hx2
          · exact hs
          · exact hall x hx2
        · intro hall x hx
          exact hall x (List.mem_cons_of_mem s hx)

/-- C2 (amended): the initial activation wait reached from `start(np, ...)`
returns successfully iff some observed `count_available_slots()` value is at
least `np` — the upper bound `max_np` is not enforced, because
`_activate_hosts` omits it — and the start-timeout error propagates out of
`start` iff every observed value stays below `np`. -/
theorem claim_C2 (trace : List Nat) (np : Nat) :
    (start_wait trace np = StartOutcome.ok ↔ ∃ s ∈ trace, np ≤ s)
      ∧ (start_wait trace np = StartOutcome.startTimeout ↔ ∀ s ∈ trace, s < np) := by
  simpa [start_wait, activate_hosts_wait] using wait_none_iff trace np

/-- Concrete registry whose single key is already recorded, for the
duplicate-report scenario. -/
def regDup : Registry :=
  { states := [(("h1", 0), WorkerHealth.READY)],
    workersReady := [("h1", 0)], workersSuccess := [], workersFailure := [],
    rendezvous_id := 1, size := 1 }

/-- C5: a record_* call whose key is already present in the current state
map emits, inside the locked section, the barrier reset first — every thread
currently waiting on the barrier receives the broken-barrier notification —
and only then the overwriting state write. -/
theorem claim_C5 (reg : Registry) (waiters : List Nat) (k : WKey) (s s0 : WorkerHealth)
    (hdup : stLookup reg.states k = some s0) :
    (record_state false reg waiters k s).2.1
        = RegEvent.barrierReset ::
            (waiters.map RegEvent.notifyBroken ++ [RegEvent.writeState k s])
      ∧ (∀ t ∈ waiters, RegEvent.notifyBroken t ∈ (record_state false reg waiters k s).2.1) := by
  have hsome : (stLookup reg.states k).isSome = true := by rw [hdup]; rfl
  have heq : (record_state false reg waiters k s).2.1
      = RegEvent.barrierReset ::
          (waiters.map RegEvent.notifyBroken ++ [RegEvent.writeState k s]) := by
    unfold record_state record_locked
    simp [hsome]
  refine ⟨heq, ?_⟩
  intro t ht
  rw [heq]
  exact List.mem_cons_of_mem _ (List.mem_append_left _ (List.mem_map_of_mem _ ht))

/-- C5 witness: the duplicate report on the concrete one-key registry, with
threads 7 and 9 waiting, emits reset, both notifications, then the write. -/
theorem claim_C5_witness :
    (record_state false regDup [7, 9] ("h1", 0) WorkerHealth.READY).2.1
        = [RegEvent.barrierReset, RegEvent.notifyBroken 7, RegEvent.notifyBroken 9,
           RegEvent.writeState ("h1", 0) WorkerHealth.READY] :=
  (claim_C5 regDup [7, 9] ("h1", 0) WorkerHealth.READY WorkerHealth.READY (by decide)).1

/-- C6: one iteration of the `_wait` loop re-raises when the barrier is
permanently broken; on a transient break it raises the state-overridden
error exactly when the key's recorded state exists and differs from the
caller's own state, and otherwise retries with the freshly snapshotted
rendezvous id (also when the key was cleared); on orderly completion it
returns the snapshot taken at entry. -/
theorem claim_C6 (reg : Registry) (k : WKey) (s : WorkerHealth) (rid : Nat) :
    wait_iteration reg k s rid BarrierSignal.brokenPermanent = WaitStep.raiseBroken
      ∧ (∀ s2, stLookup reg.states k = some s2 → s2 ≠ s →
          wait_iteration reg k s rid BarrierSignal.brokenTransient
            = WaitStep.raiseOverridden s s2)
      ∧ (stLookup reg.states k = some s →
          wait_iteration reg k s rid BarrierSignal.brokenTransient
            = WaitStep.retry reg.rendezvous_id)
      ∧ (stLookup reg.states k = none →
          wait_iteration reg k s rid BarrierSignal.brokenTransient
            = WaitStep.retry reg.rendezvous_id)
      ∧ ((∃ s2, stLookup reg.states k = some s2 ∧ s2 ≠ s)
          ↔ ∃ a b, wait_iteration reg k s rid BarrierSignal.brokenTransient
              = WaitStep.raiseOverridden a b)
      ∧ wait_iteration reg k s rid BarrierSignal.completed = WaitStep.finish rid := by
  refine ⟨rfl, ?_, ?_, ?_, ?_, rfl⟩
  · intro s2 hs2 hne
    unfold wait_iteration
    simp [hs2, hne]
  · intro hs
    unfold wait_iteration
    simp [hs]
  · intro hs
    unfold wait_iteration
    simp [hs]
  · constructor
    · rintro ⟨s2, hs2, hne⟩
      refine ⟨s, s2, ?_⟩
      unfold wait_iteration
      simp [hs2, hne]
    · rintro ⟨a, b, hab⟩
      unfold wait_iteration at hab
      cases hlk : stLookup reg.states k with
      | none => simp [hlk] at hab
      | some s2 =>
        by_cases hne : s2 = s
        · simp [hlk, hne] at hab
        · exact ⟨s2, rfl, hne⟩

/-- Concrete registry whose key was overwritten to FAILURE while a READY
reporter waited. -/
def regOver : Registry :=
  { states := [(("h1", 0), WorkerHealth.FAILURE)],
    workersReady := [("h1", 0)], workersSuccess := [], workersFailure := [("h1", 0)],
    rendezvous_id := 4, size := 2 }

/-- C6 witness: a READY reporter whose state was overwritten to FAILURE
raises the state-overridden error on a transient break. -/
theorem claim_C6_witness :
    wait_iteration regOver ("h1", 0) WorkerHealth.READY 3 BarrierSignal.brokenTransient
      = WaitStep.raiseOverridden WorkerHealth.READY WorkerHealth.FAILURE :=
  (claim_C6 regOver ("h1", 0) WorkerHealth.READY 3).2.1 WorkerHealth.FAILURE
    (by decide) (by decide)

theorem recordUpdate_rendezvous_id (reg : Registry) (k : WKey) (s : WorkerHealth) :
    (recordUpdate reg k s).rendezvous_id = reg.rendezvous_id := by
  cases s <;> rfl

theorem applyOp_rendezvous_le (reg : Registry) (op : RegOp) :
    reg.rendezvous_id ≤ (applyOp reg op).rendezvous_id := by
  cases op with
  | reset n => exact Nat.le_succ _
  | record fin k s =>
    cases fin with
    | true => exact Nat.le_refl _
    | false =>
      show reg.rendezvous_id ≤ (recordUpdate reg k s).rendezvous_id
      rw [recordUpdate_rendezvous_id]

theorem foldl_applyOp_rendezvous_le (ops : List RegOp) (reg : Registry) :
    reg.rendezvous_id ≤ (ops.foldl applyOp reg).rendezvous_id := by
  induction ops generalizing reg with
  | nil => exact Nat.le_refl _
  | cons op rest ih =>
    exact Nat.le_trans (applyOp_rendezvous_le reg op) (ih (applyOp reg op))

/-- C7: immediately after `reset(n)` the registry has size n, an empty state
map and an empty per-state worker index, and a strictly larger rendezvous
id; a record operation (finished or not) never changes the rendezvous id, so
over any sequence of registry operations the rendezvous id is monotonically
non-decreasing. -/
theorem claim_C7 (reg : Registry) (n : Nat) (fin2 : Bool) (k : WKey) (s : WorkerHealth)
    (ops : List RegOp) :
    ((applyOp reg (RegOp.reset n)).size = n
      ∧ (applyOp reg (RegOp.reset n)).states = []
      ∧ (applyOp reg (RegOp.reset n)).workersReady = []
      ∧ (applyOp reg (RegOp.reset n)).workersSuccess = []
      ∧ (applyOp reg (RegOp.reset n)).workersFailure = []
      ∧ reg.rendezvous_id < (applyOp reg (RegOp.reset n)).rendezvous_id)
      ∧ (applyOp reg (RegOp.record fin2 k s)).rendezvous_id = reg.rendezvous_id
      ∧ reg.rendezvous_id ≤ (ops.foldl applyOp reg).rendezvous_id := by
  refine ⟨⟨rfl, rfl, rfl, rfl, rfl, Nat.lt_succ_self _⟩, ?_, foldl_applyOp_rendezvous_le ops reg⟩
  cases fin2 with
  | true => rfl
  | false => exact recordUpdate_rendezvous_id reg k s

/-- C8: a worker exit whose slot has no rank assignment in the current
generation is discarded silently with Results untouched; otherwise SUCCESS
is reported exactly when the exit code is 0 (FAILURE otherwise), and the
`(exit_code, timestamp)` pair is added to Results (first write wins) under
the key `host[slot]` if and only if the driver is finished and the
rendezvous id returned by the registry equals the registry's last id. -/
theorem claim_C8 (blk : List String) (assign : List (String × Nat)) (host : String)
    (slot : Nat) (ec : Int) (ts : Nat) (fin2 : Bool) (retId lastId : Nat)
    (results : List (String × Int × Nat)) :
    (has_rank_assignment blk assign host slot = false →
        handle_worker_exit blk assign host slot ec ts fin2 retId lastId results
          = (ExitReport.discarded, results))
      ∧ (has_rank_assignment blk assign host slot = true →
          (handle_worker_exit blk assign host slot ec ts fin2 retId lastId results).1
              = ExitReport.recorded
                  (if ec = 0 then WorkerHealth.SUCCESS else WorkerHealth.FAILURE)
                  (fin2 && decide (lastId = retId))
            ∧ (handle_worker_exit blk assign host slot ec ts fin2 retId lastId results).2
              = (if fin2 && decide (lastId = retId) then
                  add_result results (resultKey host slot) (ec, ts)
                else results))
      ∧ ((∃ st, (handle_worker_exit blk assign host slot ec ts fin2 retId lastId results).1
            = ExitReport.recorded st true)
          ↔ (has_rank_assignment blk assign host slot = true
              ∧ fin2 = true ∧ lastId = retId)) := by
  refine ⟨?_, ?_, ?_⟩
  · intro hr
    unfold handle_worker_exit
    simp [hr]
  · intro hr
    unfold handle_worker_exit
    by_cases hp : (fin2 && decide (lastId = retId)) = true
    · simp [hr, hp]
    · simp [hr, hp]
  · by_cases hr : has_rank_assignment blk assign host slot = true
    · by_cases hp : (fin2 && decide (lastId = retId)) = true
      · have hp2 : fin2 = true ∧ lastId = retId := by simpa using hp
        have hfin : fin2 = true := hp2.1
        have hid : lastId = retId := hp2.2
        constructor
        · intro _
          exact ⟨hr, hfin, hid⟩
        · intro _
          refine ⟨if ec = 0 then WorkerHealth.SUCCESS else WorkerHealth.FAILURE, ?_⟩
          unfold handle_worker_exit
          simp [hr, hp]
      · constructor
        · rintro ⟨st, hst⟩
          unfold handle_worker_exit at hst
          simp only [Bool.not_eq_true] at hp
          simp [hr, hp] at hst
        · rintro ⟨-, hfin, hid⟩
          exact absurd (by simp [hfin, hid]) hp
    · constructor
      · rintro ⟨st, hst⟩
        unfold handle_worker_exit at hst
        simp only [Bool.not_eq_true] at hr
        simp [hr] at hst
      · rintro ⟨hr2, -, -⟩
        exact absurd hr2 hr

/-- C8 witness: a rank-assigned worker on h1 slot 0 exiting with code 0
while the driver is finished and the rendezvous ids agree reports SUCCESS
and publishes. -/
theorem claim_C8_witness :
    (handle_worker_exit [] [("h1", 2)] "h1" 0 0 11 true 7 7 []).1
      = ExitReport.recorded WorkerHealth.SUCCESS true :=
  ((claim_C8 [] [("h1", 2)] "h1" 0 0 11 true 7 7 []).2.1 (by decide)).1

/-- C10: constructing the driver with start_timeout 0 (or None) ignores the
explicit argument: the effective timeout equals the environment fallback,
which is 600 seconds when the environment variable is unset, so an explicit
zero start timeout cannot be configured through the constructor argument. -/
theorem claim_C10 (env : Option Nat) :
    effective_start_timeout (some 0) env = env.getD START_TIMEOUT_SECS
      ∧ effective_start_timeout (some 0) env = effective_start_timeout none env
      ∧ effective_start_timeout (some 0) none = 600 := by
  refine ⟨rfl, rfl, rfl⟩

theorem stLookup_stInsert_of_ne (m : List (WKey × WorkerHealth)) (k k2 : WKey)
    (v : WorkerHealth) (hne : k2 ≠ k) :
    stLookup (stInsert m k v) k2 = stLookup m k2 := by
  induction m with
  | nil =>
    have h2 : ¬ k = k2 := fun h => hne h.symm
    simp [stInsert, stLookup, h2]
  | cons p rest ih =>
    by_cases hp : p.1 = k
    · simp only [stInsert, hp, if_true]
      simp only [stLookup]
      have : ¬ k = k2 := fun h => hne h.symm
      simp [this, hp]
    · simp only [stInsert, hp, if_false]
      simp only [stLookup]
      by_cases hp2 : p.1 = k2
      · simp [hp2]
      · simp [hp2, ih]

theorem recordUpdate_states (reg : Registry) (k : WKey) (s : WorkerHealth) :
    (recordUpdate reg k s).states = stInsert reg.states k s := by
  cases s <;> rfl

theorem recordUpdate_size (reg : Registry) (k : WKey) (s : WorkerHealth) :
    (recordUpdate reg k s).size = reg.size := by
  cases s <;> rfl

theorem record_locked_fresh (reg : Registry) (waiters : List Nat) (k : WKey)
    (s : WorkerHealth) (h : stLookup reg.states k = none) :
    record_locked reg waiters k s
      = (recordUpdate reg k s, [RegEvent.writeState k s], reg.rendezvous_id, false) := by
  unfold record_locked
  simp [h]

theorem cycleStep_fresh_nofire (c : CycleState) (a : CArr)
    (h : stLookup c.reg.states a.2.1 = none)
    (hlt : ¬ c.pending.length + 1 = c.reg.size) :
    cycleStep c a
      = { reg := recordUpdate c.reg a.2.1 a.2.2,
          pending := c.pending ++ [(a.1, c.reg.rendezvous_id)],
          evs := c.evs ++ [RegEvent.writeState a.2.1 a.2.2],
          returned := c.returned } := by
  unfold cycleStep
  rw [record_locked_fresh c.reg (c.pending.map Prod.fst) a.2.1 a.2.2 h]
  simp [recordUpdate_size, hlt]

theorem cycleStep_fresh_fire (c : CycleState) (a : CArr)
    (h : stLookup c.reg.states a.2.1 = none)
    (hfire : c.pending.length + 1 = c.reg.size) :
    cycleStep c a
      = { reg := recordUpdate c.reg a.2.1 a.2.2,
          pending := [],
          evs := c.evs ++ [RegEvent.writeState a.2.1 a.2.2]
                   ++ [RegEvent.runAction a.1]
                   ++ ((c.pending ++ [(a.1, c.reg.rendezvous_id)]).map
                         (fun p => RegEvent.release p.1 p.2)),
          returned := c.returned ++ (c.pending ++ [(a.1, c.reg.rendezvous_id)]) } := by
  unfold cycleStep
  rw [record_locked_fresh c.reg (c.pending.map Prod.fst) a.2.1 a.2.2 h]
  simp [recordUpdate_size, hfire, List.append_assoc]

theorem cycle_shape (as : List CArr) :
    ∀ (c : CycleState), as ≠ []
      → (∀ a ∈ as, stLookup c.reg.states a.2.1 = none)
      → (as.map (fun a => a.2.1)).Nodup
      → c.pending.length + as.length = c.reg.size
      → ∃ t, t ∈ as.map Prod.fst
          ∧ (as.foldl cycleStep c).evs
              = c.evs ++ (as.map (fun a => RegEvent.writeState a.2.1 a.2.2))
                  ++ [RegEvent.runAction t]
                  ++ ((c.pending ++ as.map (fun a => (a.1, c.reg.rendezvous_id))).map
                        (fun p => RegEvent.release p.1 p.2))
          ∧ (as.foldl cycleStep c).returned
              = c.returned ++ c.pending
                  ++ as.map (fun a => (a.1, c.reg.rendezvous_id)) := by
  induction as with
  | nil => intro c hne _ _ _; exact absurd rfl hne
  | cons a rest ih =>
    intro c _ hfresh hnodup hlen
    have hfa : stLookup c.reg.states a.2.1 = none := hfresh a (List.mem_cons_self a rest)
    cases rest with
    | nil =>
      have hfire : c.pending.length + 1 = c.reg.size := by
        simpa using hlen
      rw [List.foldl_cons, List.foldl_nil, cycleStep_fresh_fire c a hfa hfire]
      exact ⟨a.1, by simp, by simp [List.append_assoc], by simp⟩
    | cons b rest2 =>
      have hlen2 : c.pending.length + (rest2.length + 2) = c.reg.size := by
        simpa [Nat.add_assoc] using hlen
      have hnf : ¬ c.pending.length + 1 = c.reg.size := by omega
      rw [List.foldl_cons, cycleStep_fresh_nofire c a hfa hnf]
      have hkey : ∀ b2 ∈ b :: rest2, b2.2.1 ≠ a.2.1 := by
        intro b2 hb2 hcon
        have hmem : a.2.1 ∈ (b :: rest2).map (fun x => x.2.1) := by
          rw [← hcon]
          exact List.mem_map_of_mem _ hb2
        exact (List.nodup_cons.mp hnodup).1 hmem
      obtain ⟨t, ht, hevs, hret⟩ :=
        ih { reg := recordUpdate c.reg a.2.1 a.2.2,
             pending := c.pending ++ [(a.1, c.reg.rendezvous_id)],
             evs := c.evs ++ [RegEvent.writeState a.2.1 a.2.2],
             returned := c.returned }
          (by simp)
          (by
            intro b2 hb2
            show stLookup (recordUpdate c.reg a.2.1 a.2.2).states b2.2.1 = none
            rw [recordUpdate_states,
              stLookup_stInsert_of_ne c.reg.states a.2.1 b2.2.1 a.2.2 (hkey b2 hb2)]
            exact hfresh b2 (List.mem_cons_of_mem a hb2))
          ((List.nodup_cons.mp hnodup).2)
          (by
            show (c.pending ++ [(a.1, c.reg.rendezvous_id)]).length + (b :: rest2).length
              = (recordUpdate c.reg a.2.1 a.2.2).size
            rw [recordUpdate_size]
            simp only [List.length_append, List.length_cons, List.length_nil,
              List.length_singleton]
            omega)
      refine ⟨t, List.mem_cons_of_mem a.1 ht, ?_, ?_⟩
      · rw [hevs]
        simp [recordUpdate_rendezvous_id, List.append_assoc]
      · rw [hret]
        simp [recordUpdate_rendezvous_id, List.append_assoc]

/-- C9: in a successful barrier cycle of a freshly reset generation of size
n — n record_* arrivals on n distinct keys, in any scheduler order — the
completion action fires exactly once, it is attributed to one participating
thread, every release event follows it in the trace, and every one of the n
callers is returned the same rendezvous id, namely the one of the
generation. -/
theorem claim_C9 (reg0 : Registry) (arrivals : List CArr)
    (hempty : reg0.states = [])
    (hnodup : (arrivals.map (fun a => a.2.1)).Nodup)
    (hlen : arrivals.length = reg0.size)
    (hpos : 0 < reg0.size) :
    ((runCycle reg0 arrivals).returned
        = arrivals.map (fun a => (a.1, reg0.rendezvous_id)))
      ∧ ((runCycle reg0 arrivals).evs.countP isRunAction = 1)
      ∧ (∃ t, t ∈ arrivals.map Prod.fst
          ∧ (runCycle reg0 arrivals).evs
              = (arrivals.map (fun a => RegEvent.writeState a.2.1 a.2.2))
                  ++ [RegEvent.runAction t]
                  ++ (arrivals.map (fun a => RegEvent.release a.1 reg0.rendezvous_id))) := by
  have hne : arrivals ≠ [] := by
    intro hcon
    rw [hcon] at hlen
    simp at hlen
    omega
  obtain ⟨t, ht, hevs, hret⟩ :=
    cycle_shape arrivals { reg := reg0, pending := [], evs := [], returned := [] }
      hne
      (by intro a _; show stLookup reg0.states a.2.1 = none; rw [hempty]; rfl)
      hnodup
      (by simpa using hlen)
  have hevs2 : (runCycle reg0 arrivals).evs
      = (arrivals.map (fun a => RegEvent.writeState a.2.1 a.2.2))
          ++ [RegEvent.runAction t]
          ++ (arrivals.map (fun a => RegEvent.release a.1 reg0.rendezvous_id)) := by
    rw [runCycle, hevs]
    simp [List.map_map, Function.comp]
  refine ⟨?_, ?_, t, ht, hevs2⟩
  · rw [runCycle, hret]
    simp
  · rw [hevs2]
    simp only [List.countP_append, List.countP_map]
    have h1 : List.countP (isRunAction ∘ fun a => RegEvent.writeState a.2.1 a.2.2) arrivals = 0 := by
      apply List.countP_eq_zero.mpr
      intro a _
      simp [Function.comp, isRunAction]
    have h2 : List.countP (isRunAction ∘ fun a => RegEvent.release a.1 reg0.rendezvous_id) arrivals = 0 := by
      apply List.countP_eq_zero.mpr
      intro a _
      simp [Function.comp, isRunAction]
    rw [h1, h2]
    simp [List.countP_cons, isRunAction]

/-- Freshly reset registry of size 2 at rendezvous id 5. -/
def regCycle : Registry :=
  { states := [], workersReady := [], workersSuccess := [], workersFailure := [],
    rendezvous_id := 5, size := 2 }

/-- Two arrivals with distinct keys for the concrete barrier cycle. -/
def arrCycle : List CArr :=
  [(1, ("h1", 0), WorkerHealth.READY), (2, ("h2", 0), WorkerHealth.READY)]

/-- C9 witness: for the concrete 2-party cycle both callers are returned
rendezvous id 5 and the completion action fires exactly once. -/
theorem claim_C9_witness :
    (runCycle regCycle arrCycle).returned = [(1, 5), (2, 5)]
      ∧ (runCycle regCycle arrCycle).evs.countP isRunAction = 1 := by
  have h := claim_C9 regCycle arrCycle rfl (by decide) rfl (by decide)
  exact ⟨h.1, h.2.1⟩

end ElasticDriver
